import Mathlib

/-!
Verification development for `canadian_band_plan.py`, a single-file Python
script that reads antenna-analyzer sweep files, computes a VSWR curve and
renders a multi-page band-plan chart.

The measurement pipeline (script lines 40-82) is embedded over `ℝ`
(IEEE floats are modelled by real numbers; the single division-by-zero that
the script relies on, `(1+rho)/(1-rho)` at `rho = 1`, is modelled by an
`EReal`-valued division `npDiv` that returns `⊤` where numpy returns `+inf`).
`np.argsort` is called with its default `kind='quicksort'` (an introsort),
which numpy documents as *not* stable; accordingly the sort is embedded as a
relation `IsArgsort` holding of every index permutation that numpy's
documented contract allows, i.e. any permutation of the indices that makes
the key array non-decreasing.

The drawing layer (matplotlib) is embedded as data: every `broken_barh`,
`text` and `plot` call of the script is transcribed into `Bar`, `TextLabel`
and trace/reference-line fields of a `Panel`, and the three `savefig` calls
into a three-`Page` `document`.  Static coordinates are transcribed as exact
rationals.
-/
namespace CanadianBandPlan

/-- One sweep sample, a `{"fq": _, "r": _, "x": _}` record of a
Rig Expert `.asd` file (script lines 52-60). -/
structure Sample where
  fq : ℝ
  r : ℝ
  x : ℝ

/-- Script lines 52-60: for each file (in sorted filename order) the freshly
read lists are *prepended* to the accumulated `freq`/`resistance`/`reactance`
lists (`freq = [...] + freq`), so later files' samples end up before earlier
ones in the pre-sort array. -/
def concatSamples (files : List (List Sample)) : List Sample :=
  files.foldl (fun acc f => f ++ acc) []

/-- Script lines 69-70:
`rho = np.sqrt(np.divide(np.square(resistance - 50) + np.square(reactance),
np.square(resistance + 50) + np.square(reactance)))`, elementwise.
(The only zero denominator is `R = -50, X = 0`, where numpy would produce
NaN; real-number division makes the quotient `0` there.  No claim concerns
that corner.) -/
noncomputable def rho (R X : ℝ) : ℝ :=
  Real.sqrt (((R - 50) ^ 2 + X ^ 2) / ((R + 50) ^ 2 + X ^ 2))

/-- IEEE-style division as performed by `np.divide` on floats, with the
infinities modelled in `EReal`: a nonzero quantity divided by `0` gives a
signed infinity (numpy emits `+inf`/`-inf` with a warning, not an error);
`0/0` (NaN, unrepresentable here) is mapped to `0`. -/
noncomputable def npDiv (a b : ℝ) : EReal :=
  if b = 0 then (if 0 < a then ⊤ else if a < 0 then ⊥ else 0)
  else ((a / b : ℝ) : EReal)

/-- Script line 73: `VSWR = np.divide(1 + rho, 1 - rho)`, elementwise. -/
noncomputable def vswr (R X : ℝ) : EReal :=
  npDiv (1 + rho R X) (1 - rho R X)

/-- The `freq` array of the script (pre-sort): the `fq` field of each sample. -/
def freqArr (ss : List Sample) : List ℝ := ss.map Sample.fq

/-- The `VSWR` array of the script (pre-sort), elementwise over the samples. -/
noncomputable def vswrArr (ss : List Sample) : List EReal :=
  ss.map fun s => vswr s.r s.x

/-- Fancy indexing `a[p]` for an index list `p` (out-of-range indices,
which never occur for a valid argsort output, default to `d`). -/
def applyPerm {α : Type} (l : List α) (d : α) (p : List ℕ) : List α :=
  p.map fun i => l.getD i d

/-- Script line 76: `np.argsort(freq)` with the default `kind='quicksort'`.
numpy's documented contract for this kind guarantees only that the result is
a permutation of the indices along which `keys` is non-decreasing; it is an
introsort and is documented as **not stable**, so the embedding is the
contract itself: the predicate holds of every output numpy is allowed to
return. -/
def IsArgsort (keys : List ℝ) (p : List ℕ) : Prop :=
  p.Perm (List.range keys.length) ∧
    (p.map fun i => keys.getD i 0).Sorted (· ≤ ·)

/-- Script lines 40-77 end to end: `c` is a possible final
`(freq, VSWR)` curve (lines 76-77: `VSWR = VSWR[np.argsort(freq)];
freq = freq[np.argsort(freq)]`, both uses of `np.argsort(freq)` evaluated on
the same pre-assignment `freq`, hence one shared permutation) computed from
the given list of sweep files. -/
noncomputable def CurveOf (files : List (List Sample)) (c : List (ℝ × EReal)) : Prop :=
  ∃ p, IsArgsort (freqArr (concatSamples files)) p ∧
    c = (applyPerm (freqArr (concatSamples files)) 0 p).zip
        (applyPerm (vswrArr (concatSamples files)) 0 p)

/-! ### Concrete sweep inputs used as witnesses and counterexamples -/
/-- A single sweep file holding one matched-load sample at 2 MHz. -/
noncomputable def wFiles : List (List Sample) := [[⟨2, 50, 0⟩]]

/-- The curve the script computes from `wFiles`. -/
noncomputable def wCurve : List (ℝ × EReal) := [(2, ((1 : ℝ) : EReal))]

/-- A single sweep file holding the two-sample sweep of the spec's scenario. -/
noncomputable def twoFiles : List (List Sample) := [[⟨1.8, 50, 0⟩, ⟨1.9, 25, 0⟩]]

/-- The curve the script computes from `twoFiles`. -/
noncomputable def twoCurve : List (ℝ × EReal) :=
  [(1.8, ((1 : ℝ) : EReal)), (1.9, ((2 : ℝ) : EReal))]

/-- A single sweep file holding one synthetic out-of-range sample
(`R = -10 < 0`). -/
noncomputable def negFiles : List (List Sample) := [[⟨7, -10, 0⟩]]

/-- The curve the script computes from `negFiles`: the negative VSWR is
passed through. -/
noncomputable def negCurve : List (ℝ × EReal) := [(7, ((-5 : ℝ) : EReal))]

/-- One file with two samples at exactly the same frequency 7 MHz
(`R = 50` first, then `R = 25`). -/
noncomputable def tieFiles : List (List Sample) := [[⟨7, 50, 0⟩, ⟨7, 25, 0⟩]]

/-- Stability of an index permutation on equal keys: samples that compare
equal keep their original relative order. -/
def StableOnTies (keys : List ℝ) (p : List ℕ) : Prop :=
  ∀ a b : ℕ, a < b → b < keys.length → keys.getD a 0 = keys.getD b 0 →
    p.indexOf a < p.indexOf b

/-! ### Drawing layer

The matplotlib calls of the script are embedded as data.  A `Bar` records
one `broken_barh` call, a `TextLabel` one `text` call, a `Panel` one axes
(`ax[i]`), a `Page` one figure handed to `pdf_pages.savefig`.  Static
coordinates are exact rationals; the measured trace and the dashed
reference lines are built from the sorted curve `c` exactly as the script
builds them from the sorted `freq`/`VSWR` arrays.  Axis ticks, tick-label
formatting and colours of the dashed lines are not modelled. -/
/-- One `broken_barh(spans, (y0, height), facecolors=colour)` call. -/
structure Bar where
  spans : List (ℚ × ℚ)
  y0 : ℚ
  height : ℚ
  colour : String

/-- One `text(x, y, label, fontsize=...)` call (`none` = default size). -/
structure TextLabel where
  x : ℚ
  y : ℚ
  label : String
  fontsize : Option ℚ

/-- One axes: its optional title, x-limits, static bars and labels, the
measured `(freq, VSWR)` trace, and the dashed reference lines, each a
`(x-array, y-array)` pair as passed to `plot`. -/
structure Panel where
  title : Option String
  xlim : ℚ × ℚ
  bars : List Bar
  texts : List TextLabel
  trace : List (ℝ × EReal)
  refLines : List (List ℝ × List ℝ)

/-- One output page: the `figsize` of the figure and its panels in order. -/
structure Page where
  figsize : ℚ × ℚ
  panels : List Panel

/-- Script line 37. -/
def title : String := "Canadian Band Plan with VSWR  (v.2026.12.24)"

/-- Script line 37, the version part of the title. -/
def version : String := "v.2026.12.24"

/- Script lines 86-93: colour constants. -/
def CW : String := "lightsalmon"

def DIGI : String := "lightskyblue"

def PHONE : String := "limegreen"

def TV : String := "plum"

def BEACON : String := "mistyrose"

def MISC : String := "gold"

def OVERVIEW : String := "black"

def SWRCOLOUR : String := "red"

/- Script lines 96-99: label heights for the HF panels (reassigned at
lines 675-678 for the 2m / 70cm panels; the reassigned values carry the
suffix `V` here). -/
def label1_y : ℚ := -0.81

def label2_y : ℚ := -0.4

def label3_y : ℚ := 0.1

def label4_y : ℚ := 8.1

def label1_yV : ℚ := 0.73

def label2_yV : ℚ := 0.79

def label3_yV : ℚ := 0.88

def label4_yV : ℚ := 1.85

/-- Script line 80: `VSWR1 = len(freq)*[1]`. -/
def VSWR1 (fr : List ℝ) : List ℝ := List.replicate fr.length 1

/-- Script line 81: `VSWR3 = len(freq)*[3]`. -/
def VSWR3 (fr : List ℝ) : List ℝ := List.replicate fr.length 3

/-- Script line 82: `VSWR10 = len(freq)*[10]`. -/
def VSWR10 (fr : List ℝ) : List ℝ := List.replicate fr.length 10

/-- The two dashed lines every detail panel gets from the per-page loops
(script lines 113-118 and 438-443): `plot(freq, VSWR1)` and
`plot(freq, VSWR3)`. -/
def refLines13 (fr : List ℝ) : List (List ℝ × List ℝ) :=
  [(fr, VSWR1 fr), (fr, VSWR3 fr)]

/-- Script lines 121-151: the 2200m panel (it also carries the page title,
line 110). -/
def panel2200 (c : List (ℝ × EReal)) : Panel :=
  let fr := c.map Prod.fst
  let x1 : ℚ := 0.1357
  let x2 : ℚ := 0.1374
  let x3 : ℚ := 0.1376
  let x4 : ℚ := 0.1378
  { title := some title
    xlim := (0.1356, 0.1379)
    bars := [⟨[(x1, 1.1 * (x2 - x1))], -1, 2, CW⟩,
             ⟨[(x2, 1.1 * (x3 - x2))], -1, 2, DIGI⟩,
             ⟨[(x3, x4 - x3)], -1, 2, MISC⟩]
    texts := [⟨0.1356, label4_y, " 2200m", none⟩,
              ⟨0.13655, label2_y, "CW", some 7⟩,
              ⟨0.13747, label2_y, "Digi", some 7⟩,
              ⟨0.13765, label2_y, "QRSS", some 7⟩]
    trace := c
    refLines := refLines13 fr }

/-- Script lines 154-181: the 630m panel. -/
def panel630 (c : List (ℝ × EReal)) : Panel :=
  let fr := c.map Prod.fst
  let x1 : ℚ := 0.472
  let x2 : ℚ := 0.475
  let x3 : ℚ := 0.479
  { title := none
    xlim := (0.4716, 0.4794)
    bars := [⟨[(x1, x3 - x1)], -1, 2, CW⟩,
             ⟨[(x2, x3 - x2)], -1, 1, DIGI⟩]
    texts := [⟨0.4716, label4_y, " 630m", none⟩,
              ⟨0.4735, label2_y, "CW", some 7⟩,
              ⟨0.4768, label2_y, "Digi", some 7⟩]
    trace := c
    refLines := refLines13 fr }

/-- Script lines 184-215: the 160m panel. -/
def panel160 (c : List (ℝ × EReal)) : Panel :=
  let fr := c.map Prod.fst
  let x1 : ℚ := 1.800
  let x2 : ℚ := 1.810
  let x3 : ℚ := 1.840
  let x4 : ℚ := 2.000
  { title := none
    xlim := (1.79, 2.01)
    bars := [⟨[(x1, 1.1 * (x3 - x1))], -1, 2, CW⟩,
             ⟨[(x1, x2 - x1)], -1, 1, DIGI⟩,
             ⟨[(x3, x4 - x3)], -1, 2, PHONE⟩]
    texts := [⟨1.79, label4_y, " 160m", none⟩,
              ⟨1.817, label2_y, "CW", some 7⟩,
              ⟨1.915, label2_y, "LSB", some 7⟩,
              ⟨1.801, label1_y, "Digi", some 7⟩]
    trace := c
    refLines := refLines13 fr }

/-- Script lines 218-256: the 80m panel. -/
def panel80 (c : List (ℝ × EReal)) : Panel :=
  let fr := c.map Prod.fst
  let x1 : ℚ := 3.5
  let x2 : ℚ := 3.58
  let x3 : ℚ := 3.589
  let x4 : ℚ := 3.6
  let x5 : ℚ := 3.842
  let x6 : ℚ := 3.845
  let x7 : ℚ := 4
  { title := none
    xlim := (3.475, 4.025)
    bars := [⟨[(x1, x3 - x1)], -1, 2, CW⟩,
             ⟨[(x2, 0.003)], -1, 2, DIGI⟩,
             ⟨[(x3, 1.1 * (x4 - x3))], -1, 2, DIGI⟩,
             ⟨[(x4, x7 - x4)], -1, 2, PHONE⟩,
             ⟨[(x5, x6 - x5)], -1, 2, TV⟩]
    texts := [⟨3.475, label4_y, " 80m", none⟩,
              ⟨3.536, label2_y, "CW", some 7⟩,
              ⟨3.592, label2_y, "D", some 7⟩,
              ⟨3.725, label2_y, "LSB", some 7⟩,
              ⟨3.839, label2_y, "TV", some 7⟩,
              ⟨3.91, label2_y, "LSB", some 7⟩]
    trace := c
    refLines := refLines13 fr }

/-- Script lines 259-304: the 60m panel (five channels, each a stacked
CW/USB/Digi triple). -/
def panel60 (c : List (ℝ × EReal)) : Panel :=
  let fr := c.map Prod.fst
  let x1 : ℚ := 5.3305
  let x2 : ℚ := 5.3465
  let x3 : ℚ := 5.3515
  let x4 : ℚ := 5.3715
  let x5 : ℚ := 5.4035
  { title := none
    xlim := (5.327, 5.409)
    bars := [⟨[(x1, 0.0030)], 0.33, 0.67, CW⟩,
             ⟨[(x1, 0.0030)], -0.33, 0.67, PHONE⟩,
             ⟨[(x1, 0.0030)], -1, 0.67, DIGI⟩,
             ⟨[(x2, 0.0030)], 0.33, 0.67, CW⟩,
             ⟨[(x2, 0.0030)], -0.33, 0.67, PHONE⟩,
             ⟨[(x2, 0.0030)], -1, 0.67, DIGI⟩,
             ⟨[(x3, 0.0150)], 0.33, 0.67, CW⟩,
             ⟨[(x3, 0.0150)], -0.33, 0.67, PHONE⟩,
             ⟨[(x3, 0.0150)], -1, 0.67, DIGI⟩,
             ⟨[(x4, 0.0030)], 0.33, 0.67, CW⟩,
             ⟨[(x4, 0.0030)], -0.33, 0.67, PHONE⟩,
             ⟨[(x4, 0.0030)], -1, 0.67, DIGI⟩,
             ⟨[(x5, 0.0030)], 0.33, 0.67, CW⟩,
             ⟨[(x5, 0.0030)], -0.33, 0.67, PHONE⟩,
             ⟨[(x5, 0.0030)], -1, 0.67, DIGI⟩]
    texts := [⟨5.327, label4_y, " 60m", none⟩,
              ⟨5.331, label3_y + 0.19, "CW", some 5⟩,
              ⟨5.331, label2_y + 0.13, "USB", some 5⟩,
              ⟨5.331, label1_y - 0.1, "Digi", some 5⟩]
    trace := c
    refLines := refLines13 fr }

/-- Script lines 307-347: the 40m panel. -/
def panel40 (c : List (ℝ × EReal)) : Panel :=
  let fr := c.map Prod.fst
  let x1 : ℚ := 7
  let x2 : ℚ := 7.035
  let x3 : ℚ := 7.04
  let x4 : ℚ := 7.07
  let x5 : ℚ := 7.125
  let x6 : ℚ := 7.165
  let x7 : ℚ := 7.175
  let x8 : ℚ := 7.3
  { title := none
    xlim := (6.985, 7.315)
    bars := [⟨[(x1, x3 - x1)], -1, 2, CW⟩,
             ⟨[(x2, x3 - x2)], -1, 1, DIGI⟩,
             ⟨[(x3, x8 - x3)], -1, 2, PHONE⟩,
             ⟨[(x4, x5 - x4)], -1, 1, DIGI⟩,
             ⟨[(x6, x7 - x6)], -1, 2, TV⟩]
    texts := [⟨6.985, label4_y, " 40m", none⟩,
              ⟨7.015, label2_y, "CW", some 7⟩,
              ⟨7.0355, label1_y, "D", some 7⟩,
              ⟨7.093, label1_y, "Digi", some 7⟩,
              ⟨7.105, label3_y, "LSB", some 7⟩,
              ⟨7.167, label2_y, "TV", some 7⟩,
              ⟨7.23, label2_y, "LSB", some 7⟩]
    trace := c
    refLines := refLines13 fr }

/-- Script lines 350-381: the 30m panel. -/
def panel30 (c : List (ℝ × EReal)) : Panel :=
  let fr := c.map Prod.fst
  let x1 : ℚ := 10.1
  let x2 : ℚ := 10.13
  let x3 : ℚ := 10.14
  let x4 : ℚ := 10.15
  { title := none
    xlim := (10.097, 10.153)
    bars := [⟨[(x1, x4 - x1)], -1, 2, CW⟩,
             ⟨[(x2, x3 - x2)], -1, 2, DIGI⟩,
             ⟨[(x3, x4 - x3)], -1, 1, DIGI⟩]
    texts := [⟨10.097, label4_y, " 30m", none⟩,
              ⟨10.115, label2_y, "CW", some 7⟩,
              ⟨10.1345, label2_y, "Digi", some 7⟩,
              ⟨10.1445, label3_y, "CW", some 7⟩]
    trace := c
    refLines := refLines13 fr }

/-- Script lines 384-424: the 20m panel. -/
def panel20 (c : List (ℝ × EReal)) : Panel :=
  let fr := c.map Prod.fst
  let x1 : ℚ := 14
  let x2 : ℚ := 14.07
  let x3 : ℚ := 14.073
  let x4 : ℚ := 14.1005
  let x5 : ℚ := 14.112
  let x6 : ℚ := 14.230
  let x7 : ℚ := 14.236
  let x8 : ℚ := 14.350
  { title := none
    xlim := (13.98, 14.37)
    bars := [⟨[(x1, x2 - x1)], -1, 2, CW⟩,
             ⟨[(x2, x5 - x2)], -1, 2, DIGI⟩,
             ⟨[(x3, x4 - x3)], 0, 1, CW⟩,
             ⟨[(x5, x8 - x5)], -1, 2, PHONE⟩,
             ⟨[(x6, x7 - x6)], -1, 2, TV⟩]
    texts := [⟨13.98, label4_y, " 20m", none⟩,
              ⟨14.033, label2_y, "CW", some 7⟩,
              ⟨14.082, label3_y, "CW", some 7⟩,
              ⟨14.087, label1_y, "Digi", some 7⟩,
              ⟨14.17, label2_y, "USB", some 7⟩,
              ⟨14.229, label2_y, "TV", some 7⟩,
              ⟨14.28, label2_y, "USB", some 7⟩]
    trace := c
    refLines := refLines13 fr }

/-- Script lines 446-479: the 17m panel. -/
def panel17 (c : List (ℝ × EReal)) : Panel :=
  let fr := c.map Prod.fst
  let x1 : ℚ := 18.068
  let x2 : ℚ := 18.095
  let x3 : ℚ := 18.1
  let x4 : ℚ := 18.11
  let x5 : ℚ := 18.168
  { title := none
    xlim := (18.062, 18.174)
    bars := [⟨[(x1, x3 - x1)], -1, 2, CW⟩,
             ⟨[(x2, x3 - x2)], -1, 1, DIGI⟩,
             ⟨[(x3, x4 - x3)], -1, 2, DIGI⟩,
             ⟨[(x4, x5 - x4)], -1, 2, PHONE⟩]
    texts := [⟨18.062, label4_y, " 17m", none⟩,
              ⟨18.082, label2_y, "CW", some 7⟩,
              ⟨18.102, label2_y, "Digi", some 7⟩,
              ⟨18.135, label2_y, "USB", some 7⟩]
    trace := c
    refLines := refLines13 fr }

/-- Script lines 482-526: the 15m panel. -/
def panel15 (c : List (ℝ × EReal)) : Panel :=
  let fr := c.map Prod.fst
  let x1 : ℚ := 21
  let x2 : ℚ := 21.07
  let x3 : ℚ := 21.08
  let x4 : ℚ := 21.083
  let x6 : ℚ := 21.125
  let x7 : ℚ := 21.150
  let x8 : ℚ := 21.340
  let x9 : ℚ := 21.343
  let x10 : ℚ := 21.450
  { title := none
    xlim := (20.975, 21.475)
    bars := [⟨[(x1, x7 - x1)], -1, 2, CW⟩,
             ⟨[(x2, x6 - x2)], -1, 2, DIGI⟩,
             ⟨[(x2 - 0.01, x3 - x2 + 0.01)], 0, 1, CW⟩,
             ⟨[(x4, x4 - x3)], 0, 1, CW⟩,
             ⟨[(x6, x7 - x6)], -1, 2, CW⟩,
             ⟨[(x7, x10 - x7)], -1, 2, PHONE⟩,
             ⟨[(x8, x9 - x8)], -1, 2, TV⟩]
    texts := [⟨20.975, label4_y, " 15m", none⟩,
              ⟨21.03, label2_y, "CW", some 7⟩,
              ⟨21.095, label2_y, "Digi", some 7⟩,
              ⟨21.13, label2_y, "CW", some 7⟩,
              ⟨21.24, label2_y, "USB", some 7⟩,
              ⟨21.337, label2_y, "TV", some 7⟩,
              ⟨21.39, label2_y, "USB", some 7⟩]
    trace := c
    refLines := refLines13 fr }

/-- Script lines 529-568: the 12m panel. -/
def panel12 (c : List (ℝ × EReal)) : Panel :=
  let fr := c.map Prod.fst
  let x1 : ℚ := 24.89
  let x2 : ℚ := 24.92
  let x3 : ℚ := 24.925
  let x4 : ℚ := 24.94
  let x5 : ℚ := 24.975
  let x6 : ℚ := 24.978
  let x7 : ℚ := 24.990
  { title := none
    xlim := (24.884, 24.996)
    bars := [⟨[(x1, x2 - x1)], -1, 2, CW⟩,
             ⟨[(x2, x4 - x2)], -1, 2, DIGI⟩,
             ⟨[(x3, x4 - x3)], 0, 1, CW⟩,
             ⟨[(x4, x7 - x4)], -1, 2, PHONE⟩,
             ⟨[(x5, x6 - x5)], -1, 2, TV⟩]
    texts := [⟨24.884, label4_y, " 12m", none⟩,
              ⟨24.904, label2_y, "CW", some 7⟩,
              ⟨24.9205, label2_y, "Digi", some 7⟩,
              ⟨24.93, label3_y, "CW", some 7⟩,
              ⟨24.956, label2_y, "USB", some 7⟩,
              ⟨24.9755, label2_y, "TV", some 7⟩,
              ⟨24.982, label2_y, "USB", some 7⟩]
    trace := c
    refLines := refLines13 fr }

/-- Script lines 571-620: the 10m panel. -/
def panel10 (c : List (ℝ × EReal)) : Panel :=
  let fr := c.map Prod.fst
  let x1 : ℚ := 28
  let x2 : ℚ := 28.07
  let x3 : ℚ := 28.1895
  let x4 : ℚ := 28.2005
  let x5 : ℚ := 28.3
  let x6 : ℚ := 28.32
  let x7 : ℚ := 28.68
  let x8 : ℚ := 28.683
  let x9 : ℚ := 29.3
  let x10 : ℚ := 29.52
  let x11 : ℚ := 29.7
  { title := none
    xlim := (27.9, 29.8)
    bars := [⟨[(x1, 1.1 * (x6 - x1))], -1, 2, CW⟩,
             ⟨[(x2, 1.1 * (x6 - x2))], -1, 1, DIGI⟩,
             ⟨[(x3, x5 - x3)], -1, 1, BEACON⟩,
             ⟨[(x3, x4 - x3)], -1, 2, BEACON⟩,
             ⟨[(x6, x11 - x6)], -1, 2, PHONE⟩,
             ⟨[(x7, x8 - x7)], -1, 2, TV⟩,
             ⟨[(x9, x10 - x9)], -1, 2, MISC⟩]
    texts := [⟨27.9, label4_y, " 10m", none⟩,
              ⟨28.015, label2_y, "CW", some 7⟩,
              ⟨28.1, label1_y, "Digi", some 7⟩,
              ⟨28.24, label3_y, "CW", some 7⟩,
              ⟨28.2, label1_y, "Beacon", some 7⟩,
              ⟨28.301, label1_y, "D", some 7⟩,
              ⟨28.47, label2_y, "USB", some 7⟩,
              ⟨28.665, label2_y, "TV", some 7⟩,
              ⟨28.95, label2_y, "USB", some 7⟩,
              ⟨29.39, label2_y, "Sat", some 7⟩,
              ⟨29.59, label2_y, "FM", some 7⟩]
    trace := c
    refLines := refLines13 fr }

/-- Script lines 623-671: the 6m panel. -/
def panel6 (c : List (ℝ × EReal)) : Panel :=
  let fr := c.map Prod.fst
  let x1 : ℚ := 50
  let x2 : ℚ := 50.1
  let x3 : ℚ := 50.6
  let x4 : ℚ := 51
  let x5 : ℚ := 51.1
  let x6 : ℚ := 52
  let x7 : ℚ := 53
  let x8 : ℚ := 54
  { title := none
    xlim := (49.78, 54.23)
    bars := [⟨[(x1, x8 - x1)], -1, 2, PHONE⟩,
             ⟨[(x1, x2 - x1)], -1, 0.67, CW⟩,
             ⟨[(x1, x2 - x1)], -0.33, 0.67, BEACON⟩,
             ⟨[(x3, x4 - x3)], -1, 2, MISC⟩,
             ⟨[(x4, x5 - x4)], -1, 1, CW⟩,
             ⟨[(x5, x6 - x5)], -1, 1, DIGI⟩,
             ⟨[(x5 - 0.003, 0.005)], -1, 2, "black"⟩,
             ⟨[(x6 - 0.003, 0.005)], -1, 2, "black"⟩,
             ⟨[(x7 - 0.003, 0.005)], -1, 2, "black"⟩]
    texts := [⟨49.78, label4_y, " 6m", none⟩,
              ⟨50.25, label2_y, "USB", some 7⟩,
              ⟨50, label1_y - 0.1, "CW", some 5⟩,
              ⟨50, label2_y + 0.1, "Beac", some 5⟩,
              ⟨50.63, label2_y, "Experimental", some 6⟩,
              ⟨51, label3_y, "DX", some 6⟩,
              ⟨51, label1_y, "CW", some 6⟩,
              ⟨51.35, label3_y, "FM Simplex", some 7⟩,
              ⟨51.43, label1_y, "Packet", some 7⟩,
              ⟨52.2, label2_y, "FM Repeater Input", some 7⟩,
              ⟨53.2, label2_y, "FM Repeater Output", some 7⟩]
    trace := c
    refLines := refLines13 fr }

/-- Script lines 680-767: the 2m panel (label heights reassigned at
lines 675-678). -/
def panel2m (c : List (ℝ × EReal)) : Panel :=
  let fr := c.map Prod.fst
  { title := none
    xlim := (143.9, 148.1)
    bars := [⟨[(144, 0.37)], 0.70, 0.3, MISC⟩,
             ⟨[(144.37, 0.12)], 0.70, 0.3, DIGI⟩,
             ⟨[(144.51, 0.38)], 0.70, 0.3, PHONE⟩,
             ⟨[(145.11, 0.38)], 0.70, 0.3, PHONE⟩,
             ⟨[(144.59, 0.02)], 0.70, 0.3, "white"⟩,
             ⟨[(145.19, 0.02)], 0.70, 0.3, "white"⟩,
             ⟨[(144.91, 0.18)], 0.70, 0.3, DIGI⟩,
             ⟨[(145.51, 0.18)], 0.70, 0.3, DIGI⟩,
             ⟨[(146.02, 0.36)], 0.70, 0.3, PHONE⟩,
             ⟨[(146.62, 0.36)], 0.70, 0.3, PHONE⟩,
             ⟨[(147, 0.38)], 0.70, 0.3, PHONE⟩,
             ⟨[(147.6, 0.38)], 0.70, 0.3, PHONE⟩,
             ⟨[(145.71, 0.08)], 0.70, 0.3, DIGI⟩,
             ⟨[(145.8, 0.2)], 0.70, 0.3, MISC⟩,
             ⟨[(146.415, 0.18)], 0.70, 0.3, PHONE⟩,
             ⟨[(147.6, 0.38)], 0.70, 0.3, PHONE⟩,
             ⟨[(147.42, 0.165)], 0.70, 0.3, MISC⟩]
    texts := [⟨143.9, label4_yV, " 2m", none⟩,
              ⟨144.13, label2_yV, "Misc", some 7⟩,
              ⟨144.37, label2_yV, "Digi", some 7⟩,
              ⟨145.115, label3_yV, "R$_1$", some 7⟩,
              ⟨145.115, label1_yV, "out", some 7⟩,
              ⟨144.515, label3_yV, "R$_1$", some 7⟩,
              ⟨144.515, label1_yV, "in", some 7⟩,
              ⟨145.27, label2_yV, "R$_2$ out", some 7⟩,
              ⟨144.67, label2_yV, "R$_2$ in", some 7⟩,
              ⟨144.91, label3_yV, "R$_2$", some 7⟩,
              ⟨144.91, label1_yV, "in", some 7⟩,
              ⟨145.51, label3_yV, "R$_2$", some 7⟩,
              ⟨145.51, label1_yV, "out", some 7⟩,
              ⟨145.01, label3_yV, "R$_1$", some 7⟩,
              ⟨145.01, label1_yV, "out", some 7⟩,
              ⟨145.61, label3_yV, "R$_1$", some 7⟩,
              ⟨145.61, label1_yV, "in", some 7⟩,
              ⟨146.1, label2_yV, "R$_3$ in", some 7⟩,
              ⟨146.7, label2_yV, "R$_3$ out", some 7⟩,
              ⟨147.1, label2_yV, "R$_4$ out", some 7⟩,
              ⟨147.7, label2_yV, "R$_4$ in", some 7⟩,
              ⟨145.71, label2_yV, "Sx", some 7⟩,
              ⟨145.85, label2_yV, "Sat", some 7⟩,
              ⟨146.415, label2_yV, "Sx", some 7⟩,
              ⟨147.7, label2_yV, "R$_4$ in", some 7⟩,
              ⟨147.42, label3_yV, "Net Lk", some 7⟩,
              ⟨147.42, label1_yV, "Sx", some 7⟩]
    trace := c
    refLines := refLines13 fr }

/-- Script lines 770-880: the 70cm panel. -/
def panel70cm (c : List (ℝ × EReal)) : Panel :=
  let fr := c.map Prod.fst
  { title := none
    xlim := (429.5, 450.5)
    bars := [⟨[(430.05, 0.9)], 0.70, 0.3, DIGI⟩,
             ⟨[(439.05, 0.9)], 0.70, 0.3, DIGI⟩,
             ⟨[(431, 0.475)], 0.70, 0.3, "grey"⟩,
             ⟨[(431.5, 1.5)], 0.70, 0.3, MISC⟩,
             ⟨[(433.025, 0.975)], 0.70, 0.3, DIGI⟩,
             ⟨[(438.025, 0.975)], 0.70, 0.3, DIGI⟩,
             ⟨[(434.025, 0.95)], 0.70, 0.3, PHONE⟩,
             ⟨[(439.025, 0.95)], 0.70, 0.15, PHONE⟩,
             ⟨[(435, 3)], 0.70, 0.3, MISC⟩,
             ⟨[(440.025, 0.925)], 0.70, 0.3, DIGI⟩,
             ⟨[(445.025, 0.925)], 0.70, 0.3, DIGI⟩,
             ⟨[(441, 0.975)], 0.70, 0.3, DIGI⟩,
             ⟨[(442, 0.975)], 0.70, 0.3, PHONE⟩,
             ⟨[(447, 0.975)], 0.70, 0.3, PHONE⟩,
             ⟨[(443.025, 1.95)], 0.70, 0.3, PHONE⟩,
             ⟨[(448.025, 1.95)], 0.70, 0.3, PHONE⟩,
             ⟨[(446, 0.975)], 0.70, 0.3, PHONE⟩]
    texts := [⟨429.5, label4_yV, " 70cm", none⟩,
              ⟨430.05, label3_yV, "Packet", some 7⟩,
              ⟨430.05, label1_yV, "Output", some 7⟩,
              ⟨439.05, label3_yV, "Packet", some 7⟩,
              ⟨439.05, label1_yV, "Input", some 7⟩,
              ⟨432, label2_yV, "Misc", some 7⟩,
              ⟨433.025, label3_yV, "R$_1$", some 7⟩,
              ⟨433.025, label1_yV, "Output", some 7⟩,
              ⟨438.025, label3_yV, "R$_1$", some 7⟩,
              ⟨438.025, label1_yV, "Input", some 7⟩,
              ⟨434.025, label3_yV, "R$_1$", some 7⟩,
              ⟨434.025, label1_yV, "Output", some 7⟩,
              ⟨436.3, label2_yV, "Sat", some 7⟩,
              ⟨440.025, label3_yV, "Digi", some 7⟩,
              ⟨440.025, label1_yV, "Output", some 7⟩,
              ⟨445.025, label3_yV, "Digi", some 7⟩,
              ⟨445.025, label1_yV, "Input", some 7⟩,
              ⟨440.9, label3_yV, "Simplex", some 7⟩,
              ⟨441, label1_yV, "Link", some 7⟩,
              ⟨442, label3_yV, "R$_2$", some 7⟩,
              ⟨442, label1_yV, "Output", some 7⟩,
              ⟨447, label3_yV, "R$_2$", some 7⟩,
              ⟨447, label1_yV, "Input", some 7⟩,
              ⟨443.025, label3_yV, "R$_3$", some 7⟩,
              ⟨443.025, label1_yV, "Output", some 7⟩,
              ⟨448.025, label3_yV, "R$_3$", some 7⟩,
              ⟨448.025, label1_yV, "Input", some 7⟩,
              ⟨446, label2_yV, "Simplex", some 7⟩]
    trace := c
    refLines := refLines13 fr }

/-- Script lines 896-958: the full-HF landscape overview panel.  It is the
only panel with a `VSWR10` dashed line (line 957). -/
def panelHF (c : List (ℝ × EReal)) : Panel :=
  let fr := c.map Prod.fst
  { title := some "HF"
    xlim := (0, 55)
    bars := [⟨[(1.8, 0.2)], -0.3, 1.3, OVERVIEW⟩,
             ⟨[(3.5, 0.5)], -0.3, 1.3, OVERVIEW⟩,
             ⟨[(5.3305, 0.076)], -0.3, 1.3, OVERVIEW⟩,
             ⟨[(7, 0.3)], -0.3, 1.3, OVERVIEW⟩,
             ⟨[(10.1, 0.05)], -0.3, 1.3, OVERVIEW⟩,
             ⟨[(14, 0.3)], -0.3, 1.3, OVERVIEW⟩,
             ⟨[(18.068, 0.1)], -0.3, 1.3, OVERVIEW⟩,
             ⟨[(21, 0.4)], -0.3, 1.3, OVERVIEW⟩,
             ⟨[(24.89, 0.1)], -0.3, 1.3, OVERVIEW⟩,
             ⟨[(28, 1.7)], -0.3, 1.3, OVERVIEW⟩,
             ⟨[(50, 4)], -0.3, 1.3, OVERVIEW⟩]
    texts := [⟨1.0, -1, "160m", some 7⟩,
              ⟨3.2, -1, "80m", some 7⟩,
              ⟨5.05, -1, "60m", some 7⟩,
              ⟨6.8, -1, "40m", some 7⟩,
              ⟨10.15, label2_yV - 0.7, "← 30m", some 7⟩,
              ⟨13.7, -1, "20m", some 7⟩,
              ⟨17.8, -1, "17m", some 7⟩,
              ⟨20.7, -1, "15m", some 7⟩,
              ⟨24.6, -1, "12m", some 7⟩,
              ⟨28, -1, "10m", some 7⟩,
              ⟨51.5, -1, "6m", some 7⟩]
    trace := c
    refLines := [(fr, VSWR1 fr), (fr, VSWR3 fr), (fr, VSWR10 fr)] }

/-- Script lines 961-987: the VHF/UHF landscape overview panel.  Note: it
gets dashed lines at 1 and 3 only (lines 985-986) - no `VSWR10` line. -/
def panelVHFUHF (c : List (ℝ × EReal)) : Panel :=
  let fr := c.map Prod.fst
  { title := some "VHF and UHF"
    xlim := (100, 500)
    bars := [⟨[(144, 4)], 0.80, 0.2, OVERVIEW⟩,
             ⟨[(222, 3)], 0.80, 0.2, OVERVIEW⟩,
             ⟨[(430, 20)], 0.80, 0.2, OVERVIEW⟩]
    texts := [⟨138, 0.7, "2m", some 7⟩,
              ⟨220, 0.7, "135cm", some 7⟩,
              ⟨430, 0.7, "70cm", some 7⟩]
    trace := c
    refLines := refLines13 fr }

/-- Script lines 105-429: the first page, `plt.subplots(nrows=8,
figsize=(8.5, 11))`, eight HF panels from 2200m to 20m. -/
def page1 (c : List (ℝ × EReal)) : Page :=
  ⟨(8.5, 11), [panel2200 c, panel630 c, panel160 c, panel80 c,
    panel60 c, panel40 c, panel30 c, panel20 c]⟩

/-- Script lines 433-885: the second page, `plt.subplots(nrows=7,
figsize=(8.5, 11))`, seven panels from 17m to 70cm. -/
def page2 (c : List (ℝ × EReal)) : Page :=
  ⟨(8.5, 11), [panel17 c, panel15 c, panel12 c, panel10 c,
    panel6 c, panel2m c, panel70cm c]⟩

/-- Script lines 890-992: the third page, `plt.subplots(nrows=2,
figsize=(11, 8.5))` (landscape), the two overview panels. -/
def page3 (c : List (ℝ × EReal)) : Page :=
  ⟨(11, 8.5), [panelHF c, panelVHFUHF c]⟩

/-- The emitted PDF: the three figures saved into `pdf_pages`, in order
(script lines 429, 885, 992). -/
def document (c : List (ℝ × EReal)) : List Page :=
  [page1 c, page2 c, page3 c]

/-! ### Claims C7-C10 -/
/-- The data-independent part of the document: every panel's bars and
labels. -/
def staticPart (d : List Page) : List (List (List Bar × List TextLabel)) :=
  d.map fun pg => pg.panels.map fun p => (p.bars, p.texts)

/-- `p` draws a dashed horizontal reference line at height `v`: one of its
plotted line series has constant `y`-array `v`. -/
def IncludesRefLine (p : Panel) (v : ℝ) : Prop :=
  ∃ rl ∈ p.refLines, rl.2 = List.replicate rl.1.length v

/-! ### Basic facts about the pipeline -/
theorem freqArr_length (ss : List Sample) : (freqArr ss).length = ss.length :=
  List.length_map _ _

theorem vswrArr_length (ss : List Sample) : (vswrArr ss).length = ss.length :=
  List.length_map _ _

/-- Fancy indexing by a permutation of all indices is a list permutation. -/
theorem applyPerm_perm {α : Type} (l : List α) (d : α) (p : List ℕ)
    (hp : p.Perm (List.range l.length)) : (applyPerm l d p).Perm l := by
  have hmap : (List.range l.length).map (fun i => l.getD i d) = l := by
    apply List.ext_getElem (by simp)
    intro i h1 h2
    simp only [List.getElem_map, List.getElem_range]
    exact List.getD_eq_getElem l d h2
  have h3 := hp.map (fun i => l.getD i d)
  rw [hmap] at h3
  exact h3

/-- The sorted curve is a permutation of the per-sample
`(frequency, vswr)` pairs. -/
theorem curve_perm {files : List (List Sample)} {c : List (ℝ × EReal)}
    (h : CurveOf files c) :
    c.Perm ((concatSamples files).map fun s => (s.fq, vswr s.r s.x)) := by
  obtain ⟨p, ⟨hperm, -⟩, hc⟩ := h
  set ss := concatSamples files with hss
  rw [freqArr_length] at hperm
  have hzip : c = p.map
      (fun i => ((freqArr ss).getD i 0, (vswrArr ss).getD i 0)) := by
    rw [hc]; exact List.zip_map' _ _ p
  have hrange : (List.range ss.length).map
      (fun i => ((freqArr ss).getD i 0, (vswrArr ss).getD i 0))
      = ss.map (fun s => (s.fq, vswr s.r s.x)) := by
    apply List.ext_getElem (by simp [freqArr, vswrArr])
    intro i h1 h2
    have hi : i < ss.length := by simpa using h2
    simp only [List.getElem_map, List.getElem_range]
    rw [List.getD_eq_getElem (freqArr ss) 0 (by rw [freqArr_length]; exact hi),
      List.getD_eq_getElem (vswrArr ss) 0 (by rw [vswrArr_length]; exact hi)]
    simp [freqArr, vswrArr]
  rw [hzip]
  have hfinal := hperm.map
    (fun i => ((freqArr ss).getD i 0, (vswrArr ss).getD i 0))
  rw [hrange] at hfinal
  exact hfinal

theorem rho_nonneg (R X : ℝ) : 0 ≤ rho R X := Real.sqrt_nonneg _

/-- For a passive load (`R ≥ 0`) the reflection-coefficient magnitude is at
most `1`. -/
theorem rho_le_one {R : ℝ} (X : ℝ) (hR : 0 ≤ R) : rho R X ≤ 1 := by
  unfold rho
  have hden : (0:ℝ) < (R + 50) ^ 2 + X ^ 2 := by positivity
  have hle : (R - 50) ^ 2 + X ^ 2 ≤ (R + 50) ^ 2 + X ^ 2 := by nlinarith
  have : ((R - 50) ^ 2 + X ^ 2) / ((R + 50) ^ 2 + X ^ 2) ≤ 1 :=
    (div_le_one hden).mpr hle
  calc Real.sqrt (((R - 50) ^ 2 + X ^ 2) / ((R + 50) ^ 2 + X ^ 2))
      ≤ Real.sqrt 1 := Real.sqrt_le_sqrt this
    _ = 1 := Real.sqrt_one

/-- For a passive load, the computed VSWR is `≥ 1` (with `⊤`, numpy's
`+inf` at `rho = 1`, counting as `≥ 1`). -/
theorem vswr_ge_one {R : ℝ} (X : ℝ) (hR : 0 ≤ R) : 1 ≤ vswr R X := by
  unfold vswr npDiv
  have h0 := rho_nonneg R X
  have h1 := rho_le_one X hR
  by_cases hz : 1 - rho R X = 0
  · simp only [hz, if_pos rfl]
    have : (0:ℝ) < 1 + rho R X := by linarith
    simp [this, le_top]
  · have hlt : rho R X < 1 := lt_of_le_of_ne h1 (by intro h; exact hz (by rw [h]; ring))
    have hpos : 0 < 1 - rho R X := by linarith
    rw [if_neg hz]
    have : (1:ℝ) ≤ (1 + rho R X) / (1 - rho R X) := by
      rw [le_div_iff₀ hpos]; linarith
    exact_mod_cast EReal.coe_le_coe_iff.mpr this

/-- `rho > 1` is impossible for a passive load: it forces `R < 0`. -/
theorem rho_gt_one_neg_r {R X : ℝ} (h : 1 < rho R X) : R < 0 := by
  by_contra hr
  push_neg at hr
  exact absurd (rho_le_one X hr) (by linarith)

/-- A matched load `R = 50, X = 0` has `rho = 0`. -/
theorem rho_matched : rho 50 0 = 0 := by
  unfold rho
  norm_num

/-- A matched load gives VSWR exactly `1`. -/
theorem vswr_matched : vswr 50 0 = ((1 : ℝ) : EReal) := by
  unfold vswr npDiv
  rw [rho_matched]
  norm_num

/-- `R = 25, X = 0` gives `rho = 1/3`. -/
theorem rho_quarter_wave : rho 25 0 = 1 / 3 := by
  unfold rho
  have h : (((25:ℝ) - 50) ^ 2 + 0 ^ 2) / ((25 + 50) ^ 2 + 0 ^ 2) = (1 / 3) ^ 2 := by
    norm_num
  rw [h, Real.sqrt_sq (by norm_num)]

/-- `R = 25, X = 0` gives VSWR exactly `2`. -/
theorem vswr_quarter_wave : vswr 25 0 = ((2 : ℝ) : EReal) := by
  unfold vswr npDiv
  rw [rho_quarter_wave]
  rw [if_neg (by norm_num)]
  norm_num

/-- The synthetic out-of-range load `R = -10, X = 0` has `rho = 3/2 > 1`. -/
theorem rho_neg_load : rho (-10) 0 = 3 / 2 := by
  unfold rho
  have h : (((-10:ℝ) - 50) ^ 2 + 0 ^ 2) / (((-10) + 50) ^ 2 + 0 ^ 2) = (3 / 2) ^ 2 := by
    norm_num
  rw [h, Real.sqrt_sq (by norm_num)]

/-- The out-of-range load propagates as the negative value `-5`, unclamped. -/
theorem vswr_neg_load : vswr (-10) 0 = ((-5 : ℝ) : EReal) := by
  unfold vswr npDiv
  rw [rho_neg_load]
  rw [if_neg (by norm_num)]
  norm_num

/-- A short circuit `R = 0, X = 0` has `rho = 1` (perfect mismatch). -/
theorem rho_short : rho 0 0 = 1 := by
  unfold rho
  have h : (((0:ℝ) - 50) ^ 2 + 0 ^ 2) / ((0 + 50) ^ 2 + 0 ^ 2) = 1 := by norm_num
  rw [h, Real.sqrt_one]

/-- A permutation of a two-element list is that list or its swap. -/
theorem perm_of_pair {α : Type} {a b : α} {p : List α} (h : p.Perm [a, b]) :
    p = [a, b] ∨ p = [b, a] := by
  match p with
  | [] => exact absurd h.length_eq (by simp)
  | [_] => exact absurd h.length_eq (by simp)
  | x :: y :: z :: t => exact absurd h.length_eq (by simp)
  | [x, y] =>
    have hx : x = a ∨ x = b := by
      have hm : x ∈ [a, b] := h.mem_iff.mp (by simp)
      simpa using hm
    rcases hx with hxa | hxb
    · left
      subst hxa
      have h2 : [y].Perm [b] := h.cons_inv
      rw [List.perm_singleton.mp h2]
    · right
      subst hxb
      have h2 : [y].Perm [a] := (h.trans (List.Perm.swap x a [])).cons_inv
      rw [List.perm_singleton.mp h2]

theorem curveOf_wFiles : CurveOf wFiles wCurve := by
  refine ⟨[0], ⟨?_, ?_⟩, ?_⟩
  · have hl : (freqArr (concatSamples wFiles)).length = 1 := by
      simp [freqArr, concatSamples, wFiles]
    rw [hl]
    decide
  · simp [freqArr, concatSamples, wFiles, applyPerm]
  · simp [wCurve, applyPerm, freqArr, vswrArr, concatSamples, wFiles, vswr_matched]

theorem curveOf_twoFiles : CurveOf twoFiles twoCurve := by
  refine ⟨[0, 1], ⟨?_, ?_⟩, ?_⟩
  · have hl : (freqArr (concatSamples twoFiles)).length = 2 := by
      simp [freqArr, concatSamples, twoFiles]
    rw [hl]
    decide
  · simp [freqArr, concatSamples, twoFiles, applyPerm, List.sorted_cons]
    norm_num
  · simp [twoCurve, applyPerm, freqArr, vswrArr, concatSamples, twoFiles,
      vswr_matched, vswr_quarter_wave]

theorem curveOf_negFiles : CurveOf negFiles negCurve := by
  refine ⟨[0], ⟨?_, ?_⟩, ?_⟩
  · have hl : (freqArr (concatSamples negFiles)).length = 1 := by
      simp [freqArr, concatSamples, negFiles]
    rw [hl]
    decide
  · simp [freqArr, concatSamples, negFiles, applyPerm]
  · simp [negCurve, applyPerm, freqArr, vswrArr, concatSamples, negFiles,
      vswr_neg_load]

/-- A contract-conforming output of the sort on `tieFiles` in which the two
equal-frequency samples appear in *reversed* relative order. -/
theorem curveOf_tieSwapped :
    CurveOf tieFiles [(7, ((2 : ℝ) : EReal)), (7, ((1 : ℝ) : EReal))] := by
  refine ⟨[1, 0], ⟨?_, ?_⟩, ?_⟩
  · have hl : (freqArr (concatSamples tieFiles)).length = 2 := by
      simp [freqArr, concatSamples, tieFiles]
    rw [hl]
    decide
  · simp [freqArr, concatSamples, tieFiles, applyPerm, List.sorted_cons]
  · simp [applyPerm, freqArr, vswrArr, concatSamples, tieFiles,
      vswr_matched, vswr_quarter_wave]

theorem concatSamples_nil : concatSamples [] = [] := rfl

theorem curveOf_nil : CurveOf [] [] := by
  refine ⟨[], ⟨?_, ?_⟩, ?_⟩
  · simp [freqArr, concatSamples]
  · simp [applyPerm]
  · simp [applyPerm]

/-- With no sweep files, the only possible curve is empty. -/
theorem curve_of_nil_eq {c : List (ℝ × EReal)} (h : CurveOf [] c) : c = [] := by
  have hp := curve_perm h
  simp only [concatSamples_nil, List.map_nil] at hp
  exact hp.eq_nil

/-- The curve's frequency column is non-decreasing. -/
theorem curve_sorted {files : List (List Sample)} {c : List (ℝ × EReal)}
    (h : CurveOf files c) : (c.map Prod.fst).Sorted (· ≤ ·) := by
  obtain ⟨p, ⟨hperm, hsort⟩, hc⟩ := h
  rw [hc, List.map_fst_zip _ _ (le_of_eq (by simp [applyPerm]))]
  exact hsort

/-! ### Claims C1-C6 -/
/-- C1: for every sweep sample with resistance `R` and reactance `X`, the
VSWR Calculator computes `rho = sqrt(((R-50)^2+X^2)/((R+50)^2+X^2))` with
`Z0 = 50` and then `VSWR = (1+rho)/(1-rho)`, elementwise over the
concatenated sample arrays: the produced curve consists exactly of the pairs
`(fq, (1+rho)/(1-rho))`, one per concatenated sample. -/
theorem c1_formula_elementwise (files : List (List Sample))
    (c : List (ℝ × EReal)) (h : CurveOf files c) :
    c.Perm ((concatSamples files).map fun s =>
      (s.fq,
        npDiv
          (1 + Real.sqrt (((s.r - 50) ^ 2 + s.x ^ 2) / ((s.r + 50) ^ 2 + s.x ^ 2)))
          (1 - Real.sqrt (((s.r - 50) ^ 2 + s.x ^ 2) / ((s.r + 50) ^ 2 + s.x ^ 2))))) :=
  curve_perm h

theorem c1_formula_elementwise_witness :
    CurveOf wFiles wCurve ∧
    wCurve.Perm ((concatSamples wFiles).map fun s =>
      (s.fq,
        npDiv
          (1 + Real.sqrt (((s.r - 50) ^ 2 + s.x ^ 2) / ((s.r + 50) ^ 2 + s.x ^ 2)))
          (1 - Real.sqrt (((s.r - 50) ^ 2 + s.x ^ 2) / ((s.r + 50) ^ 2 + s.x ^ 2))))) :=
  ⟨curveOf_wFiles, c1_formula_elementwise wFiles wCurve curveOf_wFiles⟩

/-- C2: for every sweep sample with `R ≥ 0`, the computed VSWR is `≥ 1`
(`⊤`, the model of numpy's `+inf` at `rho = 1`, counts as `≥ 1`). -/
theorem c2_vswr_ge_one (files : List (List Sample)) (c : List (ℝ × EReal))
    (h : CurveOf files c) (hpos : ∀ s ∈ concatSamples files, 0 ≤ s.r) :
    ∀ pt ∈ c, 1 ≤ pt.2 := by
  intro pt hpt
  have hmem := (curve_perm h).mem_iff.mp hpt
  obtain ⟨s, hs, rfl⟩ := List.mem_map.mp hmem
  exact vswr_ge_one s.x (hpos s hs)

theorem c2_vswr_ge_one_witness :
    (CurveOf wFiles wCurve ∧ ∀ s ∈ concatSamples wFiles, 0 ≤ s.r) ∧
    ∀ pt ∈ wCurve, 1 ≤ pt.2 := by
  have hpos : ∀ s ∈ concatSamples wFiles, 0 ≤ s.r := by
    intro s hs
    simp only [concatSamples, wFiles, List.foldl, List.append_nil,
      List.mem_singleton] at hs
    rw [hs]
    norm_num
  exact ⟨⟨curveOf_wFiles, hpos⟩, c2_vswr_ge_one wFiles wCurve curveOf_wFiles hpos⟩

/-- C3: after concatenating the samples of all input files (in any file
order) and sorting, the frequencies of the resulting curve are
non-decreasing (ties allowed, nothing deduplicated). -/
theorem c3_frequencies_sorted (files files' : List (List Sample))
    (_hp : files'.Perm files) (c : List (ℝ × EReal)) (h : CurveOf files' c) :
    (c.map Prod.fst).Sorted (· ≤ ·) :=
  curve_sorted h

theorem c3_frequencies_sorted_witness :
    (twoFiles.Perm twoFiles ∧ CurveOf twoFiles twoCurve) ∧
    (twoCurve.map Prod.fst).Sorted (· ≤ ·) :=
  ⟨⟨List.Perm.refl _, curveOf_twoFiles⟩,
    c3_frequencies_sorted twoFiles twoFiles (List.Perm.refl _) twoCurve
      curveOf_twoFiles⟩

/-- C4 counterexample: `np.argsort`'s documented contract for the default
`kind='quicksort'` (an unstable introsort) also allows outputs that reverse
equal-frequency samples: on the two equal keys `[7, 7]` the output `[1, 0]`
conforms but is not stable, and accordingly the reversed curve is a possible
result of the script on `tieFiles`. -/
theorem c4_stable_counterexample :
    CurveOf tieFiles [(7, ((2 : ℝ) : EReal)), (7, ((1 : ℝ) : EReal))] ∧
    ¬ (∀ (keys : List ℝ) (p : List ℕ), IsArgsort keys p → StableOnTies keys p) := by
  refine ⟨curveOf_tieSwapped, ?_⟩
  intro hstable
  have h1 : IsArgsort [(7 : ℝ), 7] [1, 0] := by
    constructor
    · decide
    · simp [applyPerm, List.sorted_cons]
  have h2 := hstable [(7 : ℝ), 7] [1, 0] h1 0 1 (by norm_num) (by norm_num)
    (by norm_num)
  norm_num [List.indexOf, List.findIdx, List.findIdx.go] at h2

/-- C4 amended: the sort key is the frequency alone and any
contract-conforming output is a frequency-ordered permutation of the
`(frequency, VSWR)` pairs; the relative order of equal-frequency pairs is
NOT guaranteed (numpy's default `kind='quicksort'` is not stable). -/
theorem c4_key_only_sorted_perm (files : List (List Sample))
    (c : List (ℝ × EReal)) (h : CurveOf files c) :
    (c.map Prod.fst).Sorted (· ≤ ·) ∧
    c.Perm ((concatSamples files).map fun s => (s.fq, vswr s.r s.x)) :=
  ⟨curve_sorted h, curve_perm h⟩

theorem c4_key_only_sorted_perm_witness :
    CurveOf tieFiles [((7 : ℝ), ((2 : ℝ) : EReal)), ((7 : ℝ), ((1 : ℝ) : EReal))] ∧
    (([((7 : ℝ), ((2 : ℝ) : EReal)), ((7 : ℝ), ((1 : ℝ) : EReal))].map
        Prod.fst).Sorted (· ≤ ·) ∧
    [((7 : ℝ), ((2 : ℝ) : EReal)), ((7 : ℝ), ((1 : ℝ) : EReal))].Perm
      ((concatSamples tieFiles).map fun s => (s.fq, vswr s.r s.x))) :=
  ⟨curveOf_tieSwapped, c4_key_only_sorted_perm tieFiles _ curveOf_tieSwapped⟩

/-- C5: the `rho = 1` perfect mismatch yields the defined infinite sentinel
`⊤` (numpy's `+inf`), not an error; `rho` can exceed `1` only for `R < 0`,
and in that case the resulting negative VSWR is propagated into the curve as
computed, with no clamping by this layer. -/
theorem c5_mismatch_and_anomaly (files : List (List Sample))
    (c : List (ℝ × EReal)) (h : CurveOf files c) :
    ∀ s ∈ concatSamples files,
      (s.fq, vswr s.r s.x) ∈ c ∧
      (rho s.r s.x = 1 → vswr s.r s.x = ⊤) ∧
      (1 < rho s.r s.x → s.r < 0 ∧ vswr s.r s.x < 0) := by
  intro s hs
  refine ⟨?_, ?_, ?_⟩
  · exact (curve_perm h).mem_iff.mpr (List.mem_map_of_mem _ hs)
  · intro h1
    unfold vswr npDiv
    rw [h1]
    norm_num
  · intro h1
    refine ⟨rho_gt_one_neg_r h1, ?_⟩
    unfold vswr npDiv
    have hz : 1 - rho s.r s.x ≠ 0 := by intro hz; rw [sub_eq_zero] at hz; linarith
    rw [if_neg hz]
    have hdiv : (1 + rho s.r s.x) / (1 - rho s.r s.x) < 0 :=
      div_neg_of_pos_of_neg (by linarith [rho_nonneg s.r s.x]) (by linarith)
    exact_mod_cast EReal.coe_neg'.mpr hdiv

theorem c5_mismatch_and_anomaly_witness :
    (CurveOf negFiles negCurve ∧
      (⟨7, -10, 0⟩ : Sample) ∈ concatSamples negFiles) ∧
    ((7 : ℝ), vswr (-10) 0) ∈ negCurve ∧
    (rho (-10) 0 = 1 → vswr (-10) 0 = ⊤) ∧
    (1 < rho (-10) 0 → (-10 : ℝ) < 0 ∧ vswr (-10) 0 < 0) := by
  have hmem : (⟨7, -10, 0⟩ : Sample) ∈ concatSamples negFiles := by
    simp [concatSamples, negFiles]
  exact ⟨⟨curveOf_negFiles, hmem⟩,
    c5_mismatch_and_anomaly negFiles negCurve curveOf_negFiles _ hmem⟩

/-- C6: on the two-sample sweep `[{fq:1.8, r:50, x:0}, {fq:1.9, r:25, x:0}]`
the computed curve is exactly VSWR `1` at 1.8 MHz and VSWR `2` at 1.9 MHz. -/
theorem c6_scenario_curve (c : List (ℝ × EReal)) (h : CurveOf twoFiles c) :
    c = [(1.8, ((1 : ℝ) : EReal)), (1.9, ((2 : ℝ) : EReal))] := by
  obtain ⟨p, ⟨hperm, hsort⟩, hc⟩ := h
  have hkeys : freqArr (concatSamples twoFiles) = [(1.8 : ℝ), 1.9] := by
    simp [freqArr, concatSamples, twoFiles]
  have hvs : vswrArr (concatSamples twoFiles) = [vswr 50 0, vswr 25 0] := by
    simp [vswrArr, concatSamples, twoFiles]
  rw [hkeys] at hperm hsort
  have hrange : (List.range (([(1.8 : ℝ), 1.9]).length)) = [0, 1] := by decide
  rw [hrange] at hperm
  rcases perm_of_pair hperm with h01 | h10
  · rw [hc, hkeys, hvs, h01]
    simp [applyPerm, vswr_matched, vswr_quarter_wave]
  · exfalso
    rw [h10] at hsort
    simp only [applyPerm, List.map_cons, List.map_nil] at hsort
    have := List.rel_of_sorted_cons hsort
    have h19 : ([(1.8 : ℝ), 1.9]).getD 1 0 ≤ ([(1.8 : ℝ), 1.9]).getD 0 0 :=
      this _ (by simp)
    norm_num at h19

theorem c6_scenario_curve_witness :
    CurveOf twoFiles twoCurve ∧
    twoCurve = [(1.8, ((1 : ℝ) : EReal)), (1.9, ((2 : ℝ) : EReal))] :=
  ⟨curveOf_twoFiles, c6_scenario_curve twoCurve curveOf_twoFiles⟩

/-- The segment bars and labels never depend on the measured curve. -/
theorem staticPart_const (c c' : List (ℝ × EReal)) :
    staticPart (document c) = staticPart (document c') := rfl

/-- C7: with zero sweep files the curve is empty, every panel of the
document still carries its full (unchanged) segment-bar and label set, and
its measured trace has zero points.  (The embedding is total: producing the
empty curve and empty traces is an ordinary value, not an error.) -/
theorem c7_empty_input (c : List (ℝ × EReal)) (h : CurveOf [] c) :
    c = [] ∧
    (∀ pg ∈ document c, ∀ p ∈ pg.panels, p.trace = []) ∧
    (∀ c' : List (ℝ × EReal), staticPart (document c) = staticPart (document c')) := by
  have hc := curve_of_nil_eq h
  subst hc
  refine ⟨rfl, ?_, fun c' => staticPart_const [] c'⟩
  intro pg hpg p hp
  simp only [document] at hpg
  fin_cases hpg <;>
    (simp only [page1, page2, page3] at hp
     fin_cases hp <;> rfl)

theorem c7_empty_input_witness :
    CurveOf [] [] ∧
    (([] : List (ℝ × EReal)) = [] ∧
    (∀ pg ∈ document [], ∀ p ∈ pg.panels, p.trace = []) ∧
    (∀ c' : List (ℝ × EReal),
      staticPart (document []) = staticPart (document c'))) :=
  ⟨curveOf_nil, c7_empty_input [] curveOf_nil⟩

/-- C8 counterexample: on the one-sample curve `wCurve` the VHF/UHF
overview panel of page 3 carries dashed lines at VSWR = 1 and VSWR = 3 but
NOT at VSWR = 10 (script lines 983-987 plot only `VSWR1` and `VSWR3`
there), refuting "the overview panels additionally include a reference line
at VSWR=10". -/
theorem c8_counterexample :
    page3 wCurve ∈ document wCurve ∧
    panelVHFUHF wCurve ∈ (page3 wCurve).panels ∧
    IncludesRefLine (panelVHFUHF wCurve) 1 ∧
    IncludesRefLine (panelVHFUHF wCurve) 3 ∧
    ¬ IncludesRefLine (panelVHFUHF wCurve) 10 := by
  refine ⟨by simp [document], by simp [page3], ?_, ?_, ?_⟩
  · exact ⟨(wCurve.map Prod.fst, VSWR1 (wCurve.map Prod.fst)),
      by simp [panelVHFUHF, refLines13], rfl⟩
  · exact ⟨(wCurve.map Prod.fst, VSWR3 (wCurve.map Prod.fst)),
      by simp [panelVHFUHF, refLines13], rfl⟩
  · rintro ⟨rl, hrl, heq⟩
    simp only [panelVHFUHF, refLines13, wCurve, List.map_cons, List.map_nil,
      List.mem_cons, List.not_mem_nil, or_false] at hrl
    rcases hrl with rfl | rfl <;>
      simp only [VSWR1, VSWR3, List.length_cons, List.length_nil,
        List.replicate, List.cons.injEq, and_true] at heq <;>
      norm_num at heq

/-- Every detail panel's reference lines are those of `refLines13`. -/
theorem includes_refLines13 (p : Panel) (fr : List ℝ)
    (hp : p.refLines = refLines13 fr) :
    IncludesRefLine p 1 ∧ IncludesRefLine p 3 :=
  ⟨⟨(fr, VSWR1 fr), by rw [hp]; simp [refLines13], rfl⟩,
   ⟨(fr, VSWR3 fr), by rw [hp]; simp [refLines13], rfl⟩⟩

/-- C8 amended: every panel of every page carries dashed reference lines at
VSWR = 1 and VSWR = 3; of the two overview panels only the HF one
additionally carries a VSWR = 10 line (the VHF/UHF overview does not, see
the counterexample). -/
theorem c8_reference_lines (c : List (ℝ × EReal)) :
    (∀ pg ∈ document c, ∀ p ∈ pg.panels,
      IncludesRefLine p 1 ∧ IncludesRefLine p 3) ∧
    IncludesRefLine (panelHF c) 10 := by
  constructor
  · intro pg hpg p hp
    simp only [document] at hpg
    fin_cases hpg <;>
      (simp only [page1, page2, page3] at hp
       fin_cases hp) <;>
      first
        | exact includes_refLines13 _ (c.map Prod.fst) rfl
        | exact ⟨⟨(c.map Prod.fst, VSWR1 (c.map Prod.fst)),
                   by simp [panelHF], rfl⟩,
                 ⟨(c.map Prod.fst, VSWR3 (c.map Prod.fst)),
                   by simp [panelHF], rfl⟩⟩
  · exact ⟨(c.map Prod.fst, VSWR10 (c.map Prod.fst)), by simp [panelHF], rfl⟩

theorem c8_reference_lines_witness :
    (page1 wCurve ∈ document wCurve ∧
      panel2200 wCurve ∈ (page1 wCurve).panels) ∧
    (IncludesRefLine (panel2200 wCurve) 1 ∧
      IncludesRefLine (panel2200 wCurve) 3) ∧
    IncludesRefLine (panelHF wCurve) 10 := by
  have hm1 : page1 wCurve ∈ document wCurve := by simp [document]
  have hm2 : panel2200 wCurve ∈ (page1 wCurve).panels := by simp [page1]
  exact ⟨⟨hm1, hm2⟩,
    (c8_reference_lines wCurve).1 (page1 wCurve) hm1 (panel2200 wCurve) hm2,
    (c8_reference_lines wCurve).2⟩

/-- C9: the document has exactly 3 pages; page 1 holds the eight HF panels
2200m-20m and only its first panel carries the page title, which embeds the
version string; page 2 holds the seven panels 17m-70cm; page 3 is landscape
(`figsize` 11x8.5 instead of 8.5x11) with the two overview panels. -/
theorem c9_page_layout (c : List (ℝ × EReal)) :
    (document c).length = 3 ∧
    (document c).map (fun pg => pg.panels.length) = [8, 7, 2] ∧
    (document c).map Page.figsize = [(8.5, 11), (8.5, 11), (11, 8.5)] ∧
    ((page1 c).panels.map Panel.title)
      = [some title, none, none, none, none, none, none, none] ∧
    title = "Canadian Band Plan with VSWR  (" ++ version ++ ")" ∧
    ((page1 c).panels.map fun p => p.texts.head?.map TextLabel.label)
      = [some " 2200m", some " 630m", some " 160m", some " 80m",
         some " 60m", some " 40m", some " 30m", some " 20m"] ∧
    ((page2 c).panels.map fun p => p.texts.head?.map TextLabel.label)
      = [some " 17m", some " 15m", some " 12m", some " 10m",
         some " 6m", some " 2m", some " 70cm"] ∧
    ((page3 c).panels.map Panel.title) = [some "HF", some "VHF and UHF"] :=
  ⟨rfl, rfl, rfl, rfl, rfl, rfl, rfl, rfl⟩

/-- All reference lines of all panels share the sweep frequency array as
their `x`-array and are constant `y`-arrays of the same length. -/
theorem refLines_shape (c : List (ℝ × EReal)) :
    ∀ pg ∈ document c, ∀ p ∈ pg.panels, ∀ rl ∈ p.refLines,
      rl.1 = c.map Prod.fst ∧
      ∃ k : ℝ, rl.2 = List.replicate (c.map Prod.fst).length k := by
  intro pg hpg p hp rl hrl
  simp only [document] at hpg
  fin_cases hpg <;>
    (simp only [page1, page2, page3] at hp
     fin_cases hp) <;>
    simp only [panel2200, panel630, panel160, panel80, panel60, panel40,
      panel30, panel20, panel17, panel15, panel12, panel10, panel6, panel2m,
      panel70cm, panelHF, panelVHFUHF, refLines13, List.mem_cons,
      List.not_mem_nil, or_false] at hrl <;>
    first
      | (rcases hrl with rfl | rfl
         · exact ⟨rfl, 1, rfl⟩
         · exact ⟨rfl, 3, rfl⟩)
      | (rcases hrl with rfl | rfl | rfl
         · exact ⟨rfl, 1, rfl⟩
         · exact ⟨rfl, 3, rfl⟩
         · exact ⟨rfl, 10, rfl⟩)

/-- C10 (implicit): every dashed reference line is plotted against the
sweep's own (sorted) frequency array, with a constant `y`-array of length
equal to the total sample count; hence its `x`-coordinates are all measured
frequencies (the line spans only the measured range, not the panel's
domain), and with an empty sweep-file set no panel shows any reference-line
points at all. -/
theorem c10_ref_lines_measured (files : List (List Sample))
    (c : List (ℝ × EReal)) (h : CurveOf files c) :
    ∀ pg ∈ document c, ∀ p ∈ pg.panels, ∀ rl ∈ p.refLines,
      rl.1 = c.map Prod.fst ∧
      rl.2.length = (concatSamples files).length ∧
      (∀ x ∈ rl.1, x ∈ freqArr (concatSamples files)) ∧
      (concatSamples files = [] → rl.1 = [] ∧ rl.2 = []) := by
  intro pg hpg p hp rl hrl
  obtain ⟨h1, k, h2⟩ := refLines_shape c pg hpg p hp rl hrl
  have hperm := curve_perm h
  have hlen : c.length = (concatSamples files).length := by
    simpa using hperm.length_eq
  refine ⟨h1, ?_, ?_, ?_⟩
  · rw [h2, List.length_replicate, List.length_map, hlen]
  · intro x hx
    rw [h1] at hx
    obtain ⟨pt, hpt, rfl⟩ := List.mem_map.mp hx
    obtain ⟨s, hs, rfl⟩ := List.mem_map.mp (hperm.mem_iff.mp hpt)
    exact List.mem_map_of_mem Sample.fq hs
  · intro hnil
    have hcnil : c = [] := by
      rw [hnil] at hperm
      simpa using hperm.eq_nil
    subst hcnil
    exact ⟨by rw [h1]; rfl, by rw [h2]; rfl⟩

theorem c10_ref_lines_measured_witness :
    (CurveOf wFiles wCurve ∧
      page1 wCurve ∈ document wCurve ∧
      panel2200 wCurve ∈ (page1 wCurve).panels ∧
      (wCurve.map Prod.fst, VSWR1 (wCurve.map Prod.fst))
        ∈ (panel2200 wCurve).refLines) ∧
    ((wCurve.map Prod.fst, VSWR1 (wCurve.map Prod.fst)).1
        = wCurve.map Prod.fst ∧
      (wCurve.map Prod.fst, VSWR1 (wCurve.map Prod.fst)).2.length
        = (concatSamples wFiles).length ∧
      (∀ x ∈ (wCurve.map Prod.fst, VSWR1 (wCurve.map Prod.fst)).1,
        x ∈ freqArr (concatSamples wFiles)) ∧
      (concatSamples wFiles = [] →
        (wCurve.map Prod.fst, VSWR1 (wCurve.map Prod.fst)).1 = [] ∧
        (wCurve.map Prod.fst, VSWR1 (wCurve.map Prod.fst)).2 = [])) := by
  have hm1 : page1 wCurve ∈ document wCurve := by simp [document]
  have hm2 : panel2200 wCurve ∈ (page1 wCurve).panels := by simp [page1]
  have hm3 : (wCurve.map Prod.fst, VSWR1 (wCurve.map Prod.fst))
      ∈ (panel2200 wCurve).refLines := by simp [panel2200, refLines13]
  exact ⟨⟨curveOf_wFiles, hm1, hm2, hm3⟩,
    c10_ref_lines_measured wFiles wCurve curveOf_wFiles
      (page1 wCurve) hm1 (panel2200 wCurve) hm2 _ hm3⟩

end CanadianBandPlan
